import Mathlib

/-!
Shallow embedding of src/delete_default_cloudtrail.py: an AWS utility that
resolves a CloudTrail trail by name prefix and (unless in dry-run mode)
stops it, deletes it, empties its log bucket and deletes the bucket.
External services (CloudTrail, S3, STS) are modelled as explicit
environments; every call the program issues is recorded in a trace.
-/

namespace DeleteDefaultCloudtrail

/-- Model of Python str.startswith: literal (case-sensitive) prefix test. -/
def pyStartswith (s p : String) : Bool :=
  p.toList.isPrefixOf s.toList

/-- Model of Python str.lower, used on the DRY_RUN / ERROR_NOT_FOUND values. -/
def pyLower (s : String) : String :=
  String.mk (s.toList.map Char.toLower)

/-- Model of Python str.split on a single colon separator. -/
def splitColonAux : List Char → List Char → List (List Char)
  | [], acc => [acc.reverse]
  | c :: cs, acc =>
      if c = ':' then acc.reverse :: splitColonAux cs []
      else splitColonAux cs (c :: acc)

/-- Model of the Python expression s.split on a colon. -/
def pySplitColon (s : String) : List String :=
  (splitColonAux s.toList []).map (fun cs => String.mk cs)

/-- Model of botocore ClientError: code identifies the service failure. -/
structure ClientError where
  code : String
deriving DecidableEq, Repr

/-- Python exception values the module can raise or propagate:
KeyError, a raw ClientError, the three module exception classes (the
wrapped DeleteDefaultCloudtrailError keeps its cause, Python from-err). -/
inductive PyErr where
  | keyError (key : String)
  | clientError (e : ClientError)
  | noCloudtrailsFound (msg : String)
  | multipleCloudtrailsFound (msg : String)
  | deleteDefaultCloudtrailWrapped (msg : String) (cause : ClientError)
deriving DecidableEq, Repr

/-- AWS API calls the module can issue, recorded as a trace. -/
inductive Call where
  | describeTrails
  | getTrail (name : String)
  | stopLogging (name : String)
  | deleteTrail (name : String)
  | listObjects (bucket : String)
  | deleteObject (bucket : String) (key : String)
  | deleteBucket (bucket : String)
deriving DecidableEq, Repr

/-- A call is mutating when it changes account state; listing and
describing are read-only. -/
def Call.isMutating : Call → Bool
  | .describeTrails => false
  | .getTrail _ => false
  | .listObjects _ => false
  | .stopLogging _ => true
  | .deleteTrail _ => true
  | .deleteObject _ _ => true
  | .deleteBucket _ => true

/-- Log levels used by the module. -/
inductive LogLevel where
  | debug
  | info
  | warning
  | error
deriving DecidableEq, Repr

/-- One emitted log record. -/
structure LogEntry where
  level : LogLevel
  msg : String
deriving DecidableEq, Repr

/-- An entry of the describe_trails trailList: the code reads only the
Name key of each trail dict. -/
structure TrailSummary where
  Name : String
deriving DecidableEq, Repr

/-- The Trail object inside a get_trail response: the code reads
TrailARN and S3BucketName. -/
structure TrailDescriptor where
  TrailARN : String
  S3BucketName : String
deriving DecidableEq, Repr

/-- A get_trail response dict, holding the Trail descriptor. -/
structure GetTrailResponse where
  Trail : TrailDescriptor
deriving DecidableEq, Repr

/-- Environment for the cloudtrail client: the responses the service
returns to describe_trails and get_trail, either of which may fail with a
ClientError. -/
structure CloudtrailClient where
  describe_trails : Except ClientError (List TrailSummary)
  get_trail : String → Except ClientError GetTrailResponse

/-- The names collected by the filter loop in get_cloudtrail: names from
the trailList whose Name starts with the prefix, in listed order. -/
def matching_trail_names (trailList : List TrailSummary) (pfx : String) : List String :=
  (trailList.filter (fun t => pyStartswith t.Name pfx)).map (fun t => t.Name)

/-- Message of MultipleCloudtrailsFoundError (list formatting approximated). -/
def multiple_found_error_msg (pfx : String) (names : List String) : String :=
  "Multiple (" ++ toString names.length ++ ") cloudtrails found: " ++ pfx ++ ", " ++ toString names

/-- Message of NoCloudtrailsFoundError. -/
def none_found_error_msg (pfx : String) : String :=
  "No cloudtrail found for prefix " ++ pfx

/-- Message of the wrapped DeleteDefaultCloudtrailError. -/
def lookup_failed_msg (pfx : String) : String :=
  "Error getting cloudtrail by prefix " ++ pfx

/-- Decidable equality for Except values, used to evaluate run results on
concrete inputs. -/
instance {ε α : Type} [DecidableEq ε] [DecidableEq α] : DecidableEq (Except ε α) := fun x y =>
  match x, y with
  | .ok a, .ok b =>
      if h : a = b then .isTrue (by rw [h])
      else .isFalse (by intro hc; injection hc; contradiction)
  | .error a, .error b =>
      if h : a = b then .isTrue (by rw [h])
      else .isFalse (by intro hc; injection hc; contradiction)
  | .ok _, .error _ => .isFalse (by intro hc; injection hc)
  | .error _, .ok _ => .isFalse (by intro hc; injection hc)

/-- Result of get_cloudtrail: calls issued, log records, and either an
exception or an optional trail response (Python None becomes none). -/
structure LookupResult where
  calls : List Call
  logs : List LogEntry
  result : Except PyErr (Option GetTrailResponse)
deriving DecidableEq, Repr

/-- Embedding of get_cloudtrail(client, prefix): list trails, filter by
name prefix; more than one match raises MultipleCloudtrailsFoundError,
zero matches raises NoCloudtrailsFoundError or returns None depending on
the module flag ERROR_NOT_FOUND (passed here as a parameter), exactly one
match fetches the trail via get_trail; a ClientError from either service
call is wrapped into DeleteDefaultCloudtrailError with its cause kept. -/
def get_cloudtrail (client : CloudtrailClient) (pfx : String)
    (error_not_found : Bool) : LookupResult :=
  match client.describe_trails with
  | .error err =>
      { calls := [Call.describeTrails]
        logs := [⟨.error, "Error getting cloudtrail " ++ err.code⟩]
        result := .error (.deleteDefaultCloudtrailWrapped (lookup_failed_msg pfx) err) }
  | .ok trailList =>
      let matching_trails := matching_trail_names trailList pfx
      if matching_trails.length > 1 then
        { calls := [Call.describeTrails]
          logs := [⟨.error, multiple_found_error_msg pfx matching_trails⟩]
          result := .error (.multipleCloudtrailsFound (multiple_found_error_msg pfx matching_trails)) }
      else
        match matching_trails with
        | [] =>
            if error_not_found then
              { calls := [Call.describeTrails]
                logs := [⟨.error, none_found_error_msg pfx⟩]
                result := .error (.noCloudtrailsFound (none_found_error_msg pfx)) }
            else
              { calls := [Call.describeTrails]
                logs := [⟨.warning, none_found_error_msg pfx⟩]
                result := .ok none }
        | first :: _ =>
            match client.get_trail first with
            | .error err =>
                { calls := [Call.describeTrails, Call.getTrail first]
                  logs := [⟨.error, "Error getting cloudtrail " ++ err.code⟩]
                  result := .error (.deleteDefaultCloudtrailWrapped (lookup_failed_msg pfx) err) }
            | .ok resp =>
                { calls := [Call.describeTrails, Call.getTrail first]
                  logs := []
                  result := .ok (some resp) }

/-- An object entry of a list_objects_v2 response; the code reads Key. -/
structure S3Object where
  Key : String
deriving DecidableEq, Repr

/-- A list_objects_v2 response: the service omits the Contents key when
the returned page holds no objects, so Contents is optional. -/
structure ListObjectsResponse where
  Contents : Option (List S3Object)
deriving DecidableEq, Repr

/-- State of the target bucket in the object store: current keys in
listing order, and the service page size (up to 1000 for S3); the
module never paginates past the first page. -/
structure S3State where
  objects : List String
  pageSize : Nat
deriving DecidableEq, Repr

/-- Model of the object-store list_objects_v2 call: returns the first
page of keys; the Contents key is absent when that page is empty. -/
def list_objects_v2 (s : S3State) : ListObjectsResponse :=
  let page := (s.objects.take s.pageSize).map S3Object.mk
  { Contents := if page.isEmpty then none else some page }

/-- Effect of a delete_object call on the bucket state. -/
def S3State.deleteObjectKey (s : S3State) (key : String) : S3State :=
  { s with objects := s.objects.erase key }

/-- Outcome of the S3 deletion steps: calls issued, logs, resulting
bucket state, and the propagated exception if one was raised. -/
structure S3Run where
  calls : List Call
  logs : List LogEntry
  s3 : S3State
  err : Option PyErr
deriving DecidableEq, Repr

/-- Embedding of delete_s3_objects(bucket_name, client): reads the
Contents key of a single list_objects_v2 response (a KeyError propagates
when the key is absent, i.e. when the bucket page is empty) and issues
one delete_object per listed key, in order. -/
def delete_s3_objects_run (bucket_name : String) (s : S3State) : S3Run :=
  match (list_objects_v2 s).Contents with
  | none =>
      { calls := [Call.listObjects bucket_name]
        logs := []
        s3 := s
        err := some (.keyError "Contents") }
  | some objs =>
      { calls := Call.listObjects bucket_name ::
          objs.map (fun o => Call.deleteObject bucket_name o.Key)
        logs := [⟨.debug, "All objects from s3 bucket " ++ bucket_name ++ " have been deleted."⟩]
        s3 := objs.foldl (fun st o => st.deleteObjectKey o.Key) s
        err := none }

/-- Embedding of delete_s3_bucket(bucket_name, client): deletes the
objects, then issues delete_bucket; the object store rejects the
delete_bucket call with BucketNotEmpty while keys remain (spec 4.3:
deleting a bucket that still holds objects fails at the object-store
layer). An exception from the object step propagates before any
delete_bucket call. -/
def delete_s3_bucket_run (bucket_name : String) (s : S3State) : S3Run :=
  let objRun := delete_s3_objects_run bucket_name s
  match objRun.err with
  | some e =>
      { calls := objRun.calls, logs := objRun.logs, s3 := objRun.s3, err := some e }
  | none =>
      if objRun.s3.objects.isEmpty then
        { calls := objRun.calls ++ [Call.deleteBucket bucket_name]
          logs := objRun.logs ++ [⟨.debug, "S3 bucket " ++ bucket_name ++ " has been deleted."⟩]
          s3 := objRun.s3
          err := none }
      else
        { calls := objRun.calls ++ [Call.deleteBucket bucket_name]
          logs := objRun.logs
          s3 := objRun.s3
          err := some (.clientError ⟨"BucketNotEmpty"⟩) }

/-- The warning emitted by the dry-run branch of
delete_cloudtrail_resources. -/
def not_armed_msg (arn bucket : String) : String :=
  "NOT ARMED: Cloudtrail ARN: " ++ arn ++ ", S3 Bucket Name: " ++ bucket

/-- Outcome of one delete_cloudtrail_resources invocation. -/
structure RunResult where
  calls : List Call
  logs : List LogEntry
  result : Except PyErr Unit
  s3 : S3State
deriving DecidableEq, Repr

/-- Embedding of delete_cloudtrail_resources: resolve the trail by
prefix; when a trail is found and DRY_RUN is false, stop and delete the
trail then delete the bucket (objects first); when DRY_RUN is true, only
log the NOT ARMED warning; when no trail is found, log a warning. The
module globals DRY_RUN and ERROR_NOT_FOUND are passed as parameters. -/
def delete_cloudtrail_resources (ct : CloudtrailClient) (s3 : S3State)
    (pfx : String) (dry_run error_not_found : Bool) : RunResult :=
  let lookup := get_cloudtrail ct pfx error_not_found
  match lookup.result with
  | .error e =>
      { calls := lookup.calls, logs := lookup.logs, result := .error e, s3 := s3 }
  | .ok none =>
      { calls := lookup.calls
        logs := lookup.logs ++ [⟨.warning, "Cloudtrail " ++ pfx ++ " not found."⟩]
        result := .ok ()
        s3 := s3 }
  | .ok (some cloudtrail) =>
      if !dry_run then
        let arn := cloudtrail.Trail.TrailARN
        let bucket := cloudtrail.Trail.S3BucketName
        let s3run := delete_s3_bucket_run bucket s3
        { calls := lookup.calls ++ [Call.stopLogging arn, Call.deleteTrail arn] ++ s3run.calls
          logs := lookup.logs ++ [⟨.debug, "Cloudtrail " ++ arn ++ " has been deleted."⟩] ++ s3run.logs
          result := match s3run.err with
            | some e => .error e
            | none => .ok ()
          s3 := s3run.s3 }
      else
        { calls := lookup.calls
          logs := lookup.logs ++
            [⟨.warning, not_armed_msg cloudtrail.Trail.TrailARN cloudtrail.Trail.S3BucketName⟩]
          result := .ok ()
          s3 := s3 }

/-- Embedding of the flag parsing for DRY_RUN (os.environ.get with
default true, lowercased, compared to the string true); none models an
unset variable. -/
def DRY_RUN_of (env : Option String) : Bool :=
  pyLower (env.getD "true") == "true"

/-- Embedding of the flag parsing for ERROR_NOT_FOUND (os.getenv with
default true, lowercased, compared to the string true). -/
def ERROR_NOT_FOUND_of (env : Option String) : Bool :=
  pyLower (env.getD "true") == "true"

/-- Embedding of get_partition: index 1 of the caller identity ARN split
on colons (a well-formed ARN always has that segment). -/
def get_partition (caller_arn : String) : String :=
  (pySplitColon caller_arn).getD 1 ""

/-- The role ARN built by lambda_handler from the caller partition, the
extracted account id and the ASSUME_ROLE_NAME module global. -/
def lambda_assume_role_arn (caller_arn account_id role_name : String) : String :=
  "arn:" ++ get_partition caller_arn ++ ":iam::" ++ account_id ++ ":role/" ++ role_name

/-- Embedding of the ARN resolution in cli_main: the guard is Python
truthiness (if assume_role_name:), so a missing argument and the empty
string both skip construction and pass the role-ARN argument through; a
non-empty role name builds the ARN exactly as lambda_handler does. -/
def cli_assume_role_arn (caller_arn target_account_id : String)
    (assume_role_arn assume_role_name : Option String) : Option String :=
  match assume_role_name with
  | some n =>
      if n = "" then assume_role_arn
      else
        some ("arn:" ++ get_partition caller_arn ++ ":iam::" ++ target_account_id ++ ":role/" ++ n)
  | none => assume_role_arn

/-- Nested event fields read by get_new_account_id. -/
structure CreateAccountStatus where
  accountId : String
deriving DecidableEq, Repr

/-- The serviceEventDetails object of a CreateAccountResult event. -/
structure ServiceEventDetails where
  createAccountStatus : CreateAccountStatus
deriving DecidableEq, Repr

/-- The target object of an InviteAccountToOrganization event. -/
structure InviteTarget where
  id : String
deriving DecidableEq, Repr

/-- The requestParameters object of an InviteAccountToOrganization event. -/
structure RequestParameters where
  target : InviteTarget
deriving DecidableEq, Repr

/-- The detail object of an inbound event. -/
structure EventDetail where
  eventName : String
  serviceEventDetails : ServiceEventDetails
  requestParameters : RequestParameters
deriving DecidableEq, Repr

/-- An inbound event payload. -/
structure Event where
  detail : EventDetail
deriving DecidableEq, Repr

/-- Embedding of get_new_account_id. -/
def get_new_account_id (event : Event) : String :=
  event.detail.serviceEventDetails.createAccountStatus.accountId

/-- Embedding of get_invite_account_id. -/
def get_invite_account_id (event : Event) : String :=
  event.detail.requestParameters.target.id

/-- Embedding of get_account_id: dictionary dispatch on
detail.eventName; an unsupported name raises KeyError(event_name). -/
def get_account_id (event : Event) : Except PyErr String :=
  let event_name := event.detail.eventName
  if event_name = "CreateAccountResult" then .ok (get_new_account_id event)
  else if event_name = "InviteAccountToOrganization" then .ok (get_invite_account_id event)
  else .error (.keyError event_name)

/-- Folding list erasure over the first n keys of a list leaves exactly
the keys after position n. -/
theorem foldl_erase_take (l : List String) : ∀ n : Nat,
    (l.take n).foldl (fun acc k => acc.erase k) l = l.drop n := by
  induction l with
  | nil => intro n; simp
  | cons a t ih =>
    intro n
    cases n with
    | zero => simp
    | succ m =>
      simp only [List.take_succ_cons, List.foldl_cons, List.drop_succ_cons]
      rw [List.erase_cons_head]
      exact ih m

/-- The object-deletion fold changes only the bucket's key list, by
erasing each deleted key in order. -/
theorem foldl_deleteObjectKey (objs : List S3Object) : ∀ s : S3State,
    objs.foldl (fun st o => st.deleteObjectKey o.Key) s
      = { s with objects := (objs.map S3Object.Key).foldl (fun acc k => acc.erase k) s.objects } := by
  induction objs with
  | nil => intro s; simp
  | cons o rest ih =>
    intro s
    simp only [List.foldl_cons, List.map_cons]
    rw [ih]
    simp [S3State.deleteObjectKey]

/-- Trail lookup only reads: none of the calls issued by get_cloudtrail
is mutating. -/
theorem get_cloudtrail_calls_readonly (ct : CloudtrailClient) (pfx : String) (enf : Bool) :
    ((get_cloudtrail ct pfx enf).calls).filter Call.isMutating = [] := by
  unfold get_cloudtrail
  cases ct.describe_trails with
  | error e => simp [Call.isMutating]
  | ok tl =>
    dsimp only
    split
    · simp [Call.isMutating]
    · split
      · split <;> simp [Call.isMutating]
      · split <;> simp [Call.isMutating]

/-- When the whole bucket fits in one listing page and is non-empty, the
S3 deletion step lists once, deletes every key in listed order, then
deletes the now-empty bucket successfully. -/
theorem delete_s3_bucket_run_one_page (b : String) (s : S3State)
    (hne : s.objects ≠ []) (hfit : s.objects.length ≤ s.pageSize) :
    delete_s3_bucket_run b s =
      { calls := Call.listObjects b :: (s.objects.map (Call.deleteObject b) ++ [Call.deleteBucket b])
        logs := [⟨.debug, "All objects from s3 bucket " ++ b ++ " have been deleted."⟩,
                 ⟨.debug, "S3 bucket " ++ b ++ " has been deleted."⟩]
        s3 := { s with objects := [] }
        err := none } := by
  have htake : s.objects.take s.pageSize = s.objects := List.take_of_length_le hfit
  have hdrop : s.objects.drop s.pageSize = [] := List.drop_eq_nil_of_le hfit
  have hpage : (s.objects.map S3Object.mk).isEmpty = false := by
    simp [List.isEmpty_eq_false, hne]
  have hfold :
      List.foldl (fun st o => st.deleteObjectKey o.Key) s (s.objects.map S3Object.mk)
        = { s with objects := [] } := by
    rw [foldl_deleteObjectKey]
    simp only [List.map_map]
    rw [show S3Object.Key ∘ S3Object.mk = id from rfl, List.map_id]
    nth_rewrite 2 [← htake]
    rw [foldl_erase_take, hdrop]
  have hmap : (s.objects.map S3Object.mk).map (fun o => Call.deleteObject b o.Key)
      = s.objects.map (Call.deleteObject b) := by
    rw [List.map_map]
    rfl
  have hobj : delete_s3_objects_run b s =
      { calls := Call.listObjects b :: s.objects.map (Call.deleteObject b)
        logs := [⟨.debug, "All objects from s3 bucket " ++ b ++ " have been deleted."⟩]
        s3 := { s with objects := [] }
        err := none } := by
    unfold delete_s3_objects_run list_objects_v2
    rw [htake]
    simp only [hpage, Bool.false_eq_true, if_false]
    rw [hfold, hmap]
  unfold delete_s3_bucket_run
  rw [hobj]
  simp

/-- When the bucket holds more keys than one listing page, the S3 step
lists once, deletes only the first page of keys in listed order, then
issues delete_bucket, which the service rejects because keys remain. -/
theorem delete_s3_bucket_run_overflow (b : String) (s : S3State)
    (hpos : 0 < s.pageSize) (hmore : s.pageSize < s.objects.length) :
    delete_s3_bucket_run b s =
      { calls := Call.listObjects b ::
          ((s.objects.take s.pageSize).map (Call.deleteObject b) ++ [Call.deleteBucket b])
        logs := [⟨.debug, "All objects from s3 bucket " ++ b ++ " have been deleted."⟩]
        s3 := { s with objects := s.objects.drop s.pageSize }
        err := some (.clientError ⟨"BucketNotEmpty"⟩) } := by
  have hnil : s.objects ≠ [] := by
    intro hcon
    rw [hcon] at hmore
    simp at hmore
  have htk : s.objects.take s.pageSize ≠ [] := by
    simp only [ne_eq, List.take_eq_nil_iff]
    push_neg
    exact ⟨by omega, hnil⟩
  have hpage : ((s.objects.take s.pageSize).map S3Object.mk).isEmpty = false := by
    simp [List.isEmpty_eq_false, htk]
    exact ⟨by omega, hnil⟩
  have hdropne : (s.objects.drop s.pageSize).isEmpty = false := by
    simp [List.isEmpty_eq_false, List.drop_eq_nil_iff]
    omega
  have hfold :
      List.foldl (fun st o => st.deleteObjectKey o.Key) s ((s.objects.take s.pageSize).map S3Object.mk)
        = { s with objects := s.objects.drop s.pageSize } := by
    rw [foldl_deleteObjectKey]
    simp only [List.map_map]
    rw [show S3Object.Key ∘ S3Object.mk = id from rfl, List.map_id]
    rw [foldl_erase_take]
  have hmap : ((s.objects.take s.pageSize).map S3Object.mk).map (fun o => Call.deleteObject b o.Key)
      = (s.objects.take s.pageSize).map (Call.deleteObject b) := by
    rw [List.map_map]
    rfl
  have hobj : delete_s3_objects_run b s =
      { calls := Call.listObjects b :: (s.objects.take s.pageSize).map (Call.deleteObject b)
        logs := [⟨.debug, "All objects from s3 bucket " ++ b ++ " have been deleted."⟩]
        s3 := { s with objects := s.objects.drop s.pageSize }
        err := none } := by
    unfold delete_s3_objects_run list_objects_v2
    simp only [hpage, Bool.false_eq_true, if_false]
    rw [hfold, hmap]
  unfold delete_s3_bucket_run
  rw [hobj]
  simp [hdropne]

/-- With a trail resolved and DRY_RUN true, the run issues no further
calls, appends only the NOT ARMED warning naming the ARN and bucket, and
leaves the bucket state unchanged. -/
theorem dry_run_resolved (ct : CloudtrailClient) (s3 : S3State) (pfx : String)
    (enf : Bool) (resp : GetTrailResponse)
    (h : (get_cloudtrail ct pfx enf).result = .ok (some resp)) :
    delete_cloudtrail_resources ct s3 pfx true enf =
      { calls := (get_cloudtrail ct pfx enf).calls
        logs := (get_cloudtrail ct pfx enf).logs ++
          [⟨.warning, not_armed_msg resp.Trail.TrailARN resp.Trail.S3BucketName⟩]
        result := .ok ()
        s3 := s3 } := by
  simp only [delete_cloudtrail_resources, h, Bool.not_true, Bool.false_eq_true, if_false]

/-- A dry run never changes the bucket state, whatever lookup returned. -/
theorem dry_run_s3_unchanged (ct : CloudtrailClient) (s : S3State) (pfx : String) (enf : Bool) :
    (delete_cloudtrail_resources ct s pfx true enf).s3 = s := by
  simp only [delete_cloudtrail_resources]
  cases hr : (get_cloudtrail ct pfx enf).result with
  | error e => rfl
  | ok o =>
    cases o with
    | none => rfl
    | some r => rfl

/-- With a trail resolved and DRY_RUN false, the run is the trail
deletion followed by the bucket deletion, with the lookup calls and logs
in front. -/
theorem live_run_resolved (ct : CloudtrailClient) (s3 : S3State) (pfx : String)
    (enf : Bool) (resp : GetTrailResponse)
    (h : (get_cloudtrail ct pfx enf).result = .ok (some resp)) :
    delete_cloudtrail_resources ct s3 pfx false enf =
      { calls := (get_cloudtrail ct pfx enf).calls ++
          [Call.stopLogging resp.Trail.TrailARN, Call.deleteTrail resp.Trail.TrailARN] ++
          (delete_s3_bucket_run resp.Trail.S3BucketName s3).calls
        logs := (get_cloudtrail ct pfx enf).logs ++
          [⟨.debug, "Cloudtrail " ++ resp.Trail.TrailARN ++ " has been deleted."⟩] ++
          (delete_s3_bucket_run resp.Trail.S3BucketName s3).logs
        result := match (delete_s3_bucket_run resp.Trail.S3BucketName s3).err with
          | some e => .error e
          | none => .ok ()
        s3 := (delete_s3_bucket_run resp.Trail.S3BucketName s3).s3 } := by
  simp only [delete_cloudtrail_resources, h, Bool.not_false, if_true]

/-- Lookup outcome when exactly one trail name matches the prefix and
get_trail succeeds: the fetched response is returned. -/
theorem get_cloudtrail_exact_one (ct : CloudtrailClient) (pfx : String) (enf : Bool)
    (trailList : List TrailSummary) (n : String) (resp : GetTrailResponse)
    (hd : ct.describe_trails = .ok trailList)
    (hm : matching_trail_names trailList pfx = [n])
    (hg : ct.get_trail n = .ok resp) :
    get_cloudtrail ct pfx enf =
      { calls := [Call.describeTrails, Call.getTrail n]
        logs := []
        result := .ok (some resp) } := by
  simp [get_cloudtrail, hd, hm, hg]

/-- Lookup outcome when exactly one trail name matches and get_trail
fails with a ClientError: the error is wrapped with its cause. -/
theorem get_cloudtrail_exact_one_err (ct : CloudtrailClient) (pfx : String) (enf : Bool)
    (trailList : List TrailSummary) (n : String) (e : ClientError)
    (hd : ct.describe_trails = .ok trailList)
    (hm : matching_trail_names trailList pfx = [n])
    (hg : ct.get_trail n = .error e) :
    get_cloudtrail ct pfx enf =
      { calls := [Call.describeTrails, Call.getTrail n]
        logs := [⟨.error, "Error getting cloudtrail " ++ e.code⟩]
        result := .error (.deleteDefaultCloudtrailWrapped (lookup_failed_msg pfx) e) } := by
  simp [get_cloudtrail, hd, hm, hg]

/-- Lookup outcome when no trail name matches, with ERROR_NOT_FOUND set:
NoCloudtrailsFoundError is raised. -/
theorem get_cloudtrail_zero_strict (ct : CloudtrailClient) (pfx : String)
    (trailList : List TrailSummary)
    (hd : ct.describe_trails = .ok trailList)
    (hm : matching_trail_names trailList pfx = []) :
    get_cloudtrail ct pfx true =
      { calls := [Call.describeTrails]
        logs := [⟨.error, none_found_error_msg pfx⟩]
        result := .error (.noCloudtrailsFound (none_found_error_msg pfx)) } := by
  simp [get_cloudtrail, hd, hm]

/-- Lookup outcome when no trail name matches, with ERROR_NOT_FOUND
cleared: None is returned with a warning. -/
theorem get_cloudtrail_zero_lenient (ct : CloudtrailClient) (pfx : String)
    (trailList : List TrailSummary)
    (hd : ct.describe_trails = .ok trailList)
    (hm : matching_trail_names trailList pfx = []) :
    get_cloudtrail ct pfx false =
      { calls := [Call.describeTrails]
        logs := [⟨.warning, none_found_error_msg pfx⟩]
        result := .ok none } := by
  simp [get_cloudtrail, hd, hm]

/-- Lookup outcome when two or more trail names match:
MultipleCloudtrailsFoundError, whatever ERROR_NOT_FOUND is; no get_trail
call is issued. -/
theorem get_cloudtrail_multiple (ct : CloudtrailClient) (pfx : String) (enf : Bool)
    (trailList : List TrailSummary)
    (hd : ct.describe_trails = .ok trailList)
    (hm : 2 ≤ (matching_trail_names trailList pfx).length) :
    get_cloudtrail ct pfx enf =
      { calls := [Call.describeTrails]
        logs := [⟨.error, multiple_found_error_msg pfx (matching_trail_names trailList pfx)⟩]
        result := .error (.multipleCloudtrailsFound
            (multiple_found_error_msg pfx (matching_trail_names trailList pfx)))} := by
  have hgt : (matching_trail_names trailList pfx).length > 1 := hm
  simp only [get_cloudtrail, hd]
  rw [if_pos hgt]

/-- Lookup outcome when describe_trails itself fails with a ClientError:
the error is wrapped with its cause. -/
theorem get_cloudtrail_describe_err (ct : CloudtrailClient) (pfx : String) (enf : Bool)
    (e : ClientError) (hd : ct.describe_trails = .error e) :
    get_cloudtrail ct pfx enf =
      { calls := [Call.describeTrails]
        logs := [⟨.error, "Error getting cloudtrail " ++ e.code⟩]
        result := .error (.deleteDefaultCloudtrailWrapped (lookup_failed_msg pfx) e) } := by
  simp [get_cloudtrail, hd]

/-- Deleting objects of a given bucket is always a mutating call, so the
filter keeps the whole delete_object block. -/
theorem filter_isMutating_deleteObject (b : String) (l : List String) :
    (l.map (Call.deleteObject b)).filter Call.isMutating = l.map (Call.deleteObject b) := by
  apply List.filter_eq_self.mpr
  intro c hc
  obtain ⟨k, hk, rfl⟩ := List.mem_map.mp hc
  rfl

/-- C1: with the trail listing returned by the service, trail resolution
returns the fetched descriptor of the unique prefix match, raises
NoCloudtrailsFoundError on zero matches when ERROR_NOT_FOUND is true,
returns None on zero matches when it is false, and raises
MultipleCloudtrailsFoundError on two or more matches. -/
theorem C1_trail_resolution (ct : CloudtrailClient) (pfx : String) (enf : Bool)
    (trailList : List TrailSummary)
    (hd : ct.describe_trails = .ok trailList) :
    (∀ n resp, matching_trail_names trailList pfx = [n] →
        ct.get_trail n = .ok resp →
        (get_cloudtrail ct pfx enf).result = .ok (some resp)
        ∧ (get_cloudtrail ct pfx enf).calls = [Call.describeTrails, Call.getTrail n])
    ∧ (matching_trail_names trailList pfx = [] → enf = true →
        (get_cloudtrail ct pfx enf).result
          = .error (.noCloudtrailsFound (none_found_error_msg pfx)))
    ∧ (matching_trail_names trailList pfx = [] → enf = false →
        (get_cloudtrail ct pfx enf).result = .ok none)
    ∧ (2 ≤ (matching_trail_names trailList pfx).length →
        (get_cloudtrail ct pfx enf).result
          = .error (.multipleCloudtrailsFound
              (multiple_found_error_msg pfx (matching_trail_names trailList pfx)))) := by
  refine ⟨?_, ?_, ?_, ?_⟩
  · intro n resp hm hg
    rw [get_cloudtrail_exact_one ct pfx enf trailList n resp hd hm hg]
    exact ⟨rfl, rfl⟩
  · intro hm he
    subst he
    rw [get_cloudtrail_zero_strict ct pfx trailList hd hm]
  · intro hm he
    subst he
    rw [get_cloudtrail_zero_lenient ct pfx trailList hd hm]
  · intro hm
    rw [get_cloudtrail_multiple ct pfx enf trailList hd hm]

/-- Concrete trail listing for the resolution witness. -/
def w1_list : List TrailSummary := [⟨"cloudtrail-prod"⟩, ⟨"unrelated"⟩]

/-- Concrete get_trail response for the resolution witness. -/
def w1_resp : GetTrailResponse :=
  ⟨⟨"arn:aws:cloudtrail:us-east-1:111111111111:trail/cloudtrail-prod", "my-trail-bucket"⟩⟩

/-- Concrete cloudtrail environment for the resolution witness. -/
def w1_client : CloudtrailClient :=
  { describe_trails := .ok w1_list
    get_trail := fun _ => .ok w1_resp }

/-- Witness for C1 at a listing with exactly one matching trail. -/
theorem C1_trail_resolution_witness :
    (get_cloudtrail w1_client "cloudtrail-" true).result = .ok (some w1_resp)
    ∧ (get_cloudtrail w1_client "cloudtrail-" true).calls
        = [Call.describeTrails, Call.getTrail "cloudtrail-prod"] :=
  (C1_trail_resolution w1_client "cloudtrail-" true w1_list rfl).1
    "cloudtrail-prod" w1_resp (by decide) rfl

/-- C2: in live mode with a resolved trail whose bucket is non-empty and
fits in one listing page, the mutating calls of the run are exactly
stop_logging, delete_trail, the delete_object calls in listed order, and
delete_bucket, in that order. -/
theorem C2_live_mutating_call_order (ct : CloudtrailClient) (s3 : S3State) (pfx : String)
    (enf : Bool) (resp : GetTrailResponse)
    (h : (get_cloudtrail ct pfx enf).result = .ok (some resp))
    (hne : s3.objects ≠ []) (hfit : s3.objects.length ≤ s3.pageSize) :
    (delete_cloudtrail_resources ct s3 pfx false enf).calls.filter Call.isMutating
      = Call.stopLogging resp.Trail.TrailARN :: Call.deleteTrail resp.Trail.TrailARN ::
        (s3.objects.map (Call.deleteObject resp.Trail.S3BucketName)
          ++ [Call.deleteBucket resp.Trail.S3BucketName]) := by
  rw [live_run_resolved ct s3 pfx enf resp h]
  rw [delete_s3_bucket_run_one_page resp.Trail.S3BucketName s3 hne hfit]
  simp only [List.filter_append, get_cloudtrail_calls_readonly, List.filter_cons,
    filter_isMutating_deleteObject]
  simp [Call.isMutating, filter_isMutating_deleteObject]

/-- Concrete bucket state for the live-order witness: two objects. -/
def w2_s3 : S3State := ⟨["log/key1", "log/key2"], 1000⟩

/-- Witness for C2 at the concrete client and a two-object bucket. -/
theorem C2_live_mutating_call_order_witness :
    (delete_cloudtrail_resources w1_client w2_s3 "cloudtrail-" false true).calls.filter
        Call.isMutating
      = Call.stopLogging "arn:aws:cloudtrail:us-east-1:111111111111:trail/cloudtrail-prod" ::
        Call.deleteTrail "arn:aws:cloudtrail:us-east-1:111111111111:trail/cloudtrail-prod" ::
        (["log/key1", "log/key2"].map (Call.deleteObject "my-trail-bucket")
          ++ [Call.deleteBucket "my-trail-bucket"]) :=
  C2_live_mutating_call_order w1_client w2_s3 "cloudtrail-" true w1_resp (by decide)
    (by decide) (by decide)

/-- C3: with a resolved trail and DRY_RUN true, no mutating call is
issued, the NOT ARMED warning naming the ARN and bucket is logged, the
bucket state is unchanged, and re-running any number of times over the
resulting state reproduces the identical outcome. -/
theorem C3_dry_run_no_mutations (ct : CloudtrailClient) (s3 : S3State) (pfx : String)
    (enf : Bool) (resp : GetTrailResponse)
    (h : (get_cloudtrail ct pfx enf).result = .ok (some resp)) :
    (delete_cloudtrail_resources ct s3 pfx true enf).calls.filter Call.isMutating = []
    ∧ LogEntry.mk .warning (not_armed_msg resp.Trail.TrailARN resp.Trail.S3BucketName)
        ∈ (delete_cloudtrail_resources ct s3 pfx true enf).logs
    ∧ (delete_cloudtrail_resources ct s3 pfx true enf).s3 = s3
    ∧ ∀ n : Nat,
        delete_cloudtrail_resources ct
            ((fun s => (delete_cloudtrail_resources ct s pfx true enf).s3)^[n] s3) pfx true enf
          = delete_cloudtrail_resources ct s3 pfx true enf := by
  have hiter : (fun s => (delete_cloudtrail_resources ct s pfx true enf).s3) = id :=
    funext (fun s => dry_run_s3_unchanged ct s pfx enf)
  refine ⟨?_, ?_, dry_run_s3_unchanged ct s3 pfx enf, ?_⟩
  · rw [dry_run_resolved ct s3 pfx enf resp h]
    exact get_cloudtrail_calls_readonly ct pfx enf
  · rw [dry_run_resolved ct s3 pfx enf resp h]
    simp [not_armed_msg]
  · intro n
    rw [hiter, Function.iterate_id, id]

/-- Witness for C3 at the concrete client and bucket state. -/
theorem C3_dry_run_no_mutations_witness :
    (delete_cloudtrail_resources w1_client w2_s3 "cloudtrail-" true true).calls.filter
        Call.isMutating = []
    ∧ LogEntry.mk .warning
        (not_armed_msg "arn:aws:cloudtrail:us-east-1:111111111111:trail/cloudtrail-prod"
          "my-trail-bucket")
        ∈ (delete_cloudtrail_resources w1_client w2_s3 "cloudtrail-" true true).logs
    ∧ (delete_cloudtrail_resources w1_client w2_s3 "cloudtrail-" true true).s3 = w2_s3
    ∧ ∀ n : Nat,
        delete_cloudtrail_resources w1_client
            ((fun s => (delete_cloudtrail_resources w1_client s "cloudtrail-" true true).s3)^[n]
              w2_s3) "cloudtrail-" true true
          = delete_cloudtrail_resources w1_client w2_s3 "cloudtrail-" true true :=
  C3_dry_run_no_mutations w1_client w2_s3 "cloudtrail-" true w1_resp (by decide)

/-- C4: when two or more trail names match the prefix, the run fails
with MultipleCloudtrailsFoundError for every ERROR_NOT_FOUND and DRY_RUN
setting, issues only the describe_trails call (so no trail is selected,
fetched or deleted), and leaves the bucket untouched. -/
theorem C4_multiple_matches (ct : CloudtrailClient) (s3 : S3State) (pfx : String)
    (dry enf : Bool) (trailList : List TrailSummary)
    (hd : ct.describe_trails = .ok trailList)
    (hm : 2 ≤ (matching_trail_names trailList pfx).length) :
    (delete_cloudtrail_resources ct s3 pfx dry enf).result
      = .error (.multipleCloudtrailsFound
          (multiple_found_error_msg pfx (matching_trail_names trailList pfx)))
    ∧ (delete_cloudtrail_resources ct s3 pfx dry enf).calls = [Call.describeTrails]
    ∧ (delete_cloudtrail_resources ct s3 pfx dry enf).s3 = s3 := by
  have hlk := get_cloudtrail_multiple ct pfx enf trailList hd hm
  have hres : (get_cloudtrail ct pfx enf).result
      = .error (.multipleCloudtrailsFound
          (multiple_found_error_msg pfx (matching_trail_names trailList pfx))) := by
    rw [hlk]
  constructor
  · simp only [delete_cloudtrail_resources, hres]
  constructor
  · simp only [delete_cloudtrail_resources, hres]
    rw [hlk]
  · simp only [delete_cloudtrail_resources, hres]

/-- Concrete client with the spec scenario of two matching trails. -/
def w4_client : CloudtrailClient :=
  { describe_trails := .ok [⟨"cloudtrail-prod"⟩, ⟨"cloudtrail-dev"⟩]
    get_trail := fun _ => .error ⟨"TrailNotFoundException"⟩ }

/-- Witness for C4 at the two-trail scenario from the spec. -/
theorem C4_multiple_matches_witness :
    (delete_cloudtrail_resources w4_client w2_s3 "cloudtrail-" false true).result
      = .error (.multipleCloudtrailsFound
          (multiple_found_error_msg "cloudtrail-"
            (matching_trail_names [⟨"cloudtrail-prod"⟩, ⟨"cloudtrail-dev"⟩] "cloudtrail-")))
    ∧ (delete_cloudtrail_resources w4_client w2_s3 "cloudtrail-" false true).calls
        = [Call.describeTrails]
    ∧ (delete_cloudtrail_resources w4_client w2_s3 "cloudtrail-" false true).s3 = w2_s3 :=
  C4_multiple_matches w4_client w2_s3 "cloudtrail-" false true
    [⟨"cloudtrail-prod"⟩, ⟨"cloudtrail-dev"⟩] rfl (by decide)

/-- C5: account-id extraction returns the createAccountStatus accountId
for CreateAccountResult events, the requestParameters target id for
InviteAccountToOrganization events, and raises KeyError (the
unrecognized-event error of the dictionary dispatch) for every other
event name. -/
theorem C5_account_id_extraction (e : Event) :
    (e.detail.eventName = "CreateAccountResult" →
        get_account_id e = .ok e.detail.serviceEventDetails.createAccountStatus.accountId)
    ∧ (e.detail.eventName = "InviteAccountToOrganization" →
        get_account_id e = .ok e.detail.requestParameters.target.id)
    ∧ (e.detail.eventName ≠ "CreateAccountResult" →
        e.detail.eventName ≠ "InviteAccountToOrganization" →
        get_account_id e = .error (.keyError e.detail.eventName)) := by
  refine ⟨?_, ?_, ?_⟩
  · intro h1
    simp [get_account_id, get_new_account_id, h1]
  · intro h1
    simp [get_account_id, get_invite_account_id, h1]
  · intro h1 h2
    simp [get_account_id, h1, h2]

/-- Concrete CreateAccountResult event from the spec example. -/
def w5_create : Event :=
  ⟨⟨"CreateAccountResult", ⟨⟨"111111111111"⟩⟩, ⟨⟨"999999999999"⟩⟩⟩⟩

/-- Concrete InviteAccountToOrganization event from the spec example. -/
def w5_invite : Event :=
  ⟨⟨"InviteAccountToOrganization", ⟨⟨"999999999999"⟩⟩, ⟨⟨"222222222222"⟩⟩⟩⟩

/-- Concrete unsupported event. -/
def w5_other : Event :=
  ⟨⟨"CloseAccountResult", ⟨⟨"999999999999"⟩⟩, ⟨⟨"999999999999"⟩⟩⟩⟩

/-- Witness for C5 at the three spec examples. -/
theorem C5_account_id_extraction_witness :
    get_account_id w5_create = .ok "111111111111"
    ∧ get_account_id w5_invite = .ok "222222222222"
    ∧ get_account_id w5_other = .error (.keyError "CloseAccountResult") :=
  ⟨(C5_account_id_extraction w5_create).1 rfl,
   (C5_account_id_extraction w5_invite).2.1 rfl,
   (C5_account_id_extraction w5_other).2.2 (by decide) (by decide)⟩

/-- Concrete client for the empty-bucket run: one matching trail. -/
def c6_client : CloudtrailClient :=
  { describe_trails := .ok [⟨"cloudtrail-prod"⟩]
    get_trail := fun _ =>
      .ok ⟨⟨"arn:aws:cloudtrail:us-east-1:111111111111:trail/cloudtrail-prod",
            "my-trail-bucket"⟩⟩ }

/-- Bucket holding zero objects. -/
def c6_s3 : S3State := ⟨[], 1000⟩

/-- The live run against the empty bucket. -/
def c6_run : RunResult := delete_cloudtrail_resources c6_client c6_s3 "cloudtrail-" false true

/-- C6 (observed behavior at the failing input): with a resolved trail
whose bucket holds zero objects, the live run does not vacuously succeed;
reading the absent Contents key of the single list_objects_v2 response
raises KeyError after the trail deletion, and the delete_bucket call is
never issued. -/
theorem C6_empty_bucket_keyerror :
    c6_run.result = .error (.keyError "Contents")
    ∧ Call.deleteBucket "my-trail-bucket" ∉ c6_run.calls
    ∧ c6_run.calls.filter Call.isMutating
        = [Call.stopLogging "arn:aws:cloudtrail:us-east-1:111111111111:trail/cloudtrail-prod",
           Call.deleteTrail "arn:aws:cloudtrail:us-east-1:111111111111:trail/cloudtrail-prod"] := by
  decide

/-- C7: a ClientError from describe_trails, or from get_trail on the
unique match, is re-raised as the single DeleteDefaultCloudtrailError
whose message names the prefix and whose cause is the original error. -/
theorem C7_lookup_errors_wrapped (ct : CloudtrailClient) (pfx : String) (enf : Bool) :
    (∀ e, ct.describe_trails = .error e →
        (get_cloudtrail ct pfx enf).result
          = .error (.deleteDefaultCloudtrailWrapped (lookup_failed_msg pfx) e))
    ∧ (∀ trailList n e, ct.describe_trails = .ok trailList →
        matching_trail_names trailList pfx = [n] →
        ct.get_trail n = .error e →
        (get_cloudtrail ct pfx enf).result
          = .error (.deleteDefaultCloudtrailWrapped (lookup_failed_msg pfx) e))
    ∧ lookup_failed_msg pfx = "Error getting cloudtrail by prefix " ++ pfx := by
  refine ⟨?_, ?_, rfl⟩
  · intro e hd
    rw [get_cloudtrail_describe_err ct pfx enf e hd]
  · intro trailList n e hd hm hg
    rw [get_cloudtrail_exact_one_err ct pfx enf trailList n e hd hm hg]

/-- Concrete client whose describe_trails fails. -/
def w7_client : CloudtrailClient :=
  { describe_trails := .error ⟨"AccessDeniedException"⟩
    get_trail := fun _ => .error ⟨"AccessDeniedException"⟩ }

/-- Witness for C7 at a failing describe_trails call. -/
theorem C7_lookup_errors_wrapped_witness :
    (get_cloudtrail w7_client "cloudtrail-" true).result
      = .error (.deleteDefaultCloudtrailWrapped (lookup_failed_msg "cloudtrail-")
          ⟨"AccessDeniedException"⟩) :=
  (C7_lookup_errors_wrapped w7_client "cloudtrail-" true).1 ⟨"AccessDeniedException"⟩ rfl

/-- C8: the object-deletion step issues exactly one list_objects_v2 call
followed by one delete_object per key of that single page in listed
order; keys beyond the first page are never deleted, so the bucket stays
non-empty and the subsequent delete_bucket call fails with
BucketNotEmpty. -/
theorem C8_single_page_object_deletion (b : String) (s : S3State)
    (hpos : 0 < s.pageSize) (hmore : s.pageSize < s.objects.length) :
    delete_s3_bucket_run b s =
      { calls := Call.listObjects b ::
          ((s.objects.take s.pageSize).map (Call.deleteObject b) ++ [Call.deleteBucket b])
        logs := [⟨.debug, "All objects from s3 bucket " ++ b ++ " have been deleted."⟩]
        s3 := { s with objects := s.objects.drop s.pageSize }
        err := some (.clientError ⟨"BucketNotEmpty"⟩) }
    ∧ s.objects.drop s.pageSize ≠ [] := by
  refine ⟨delete_s3_bucket_run_overflow b s hpos hmore, ?_⟩
  simp only [ne_eq, List.drop_eq_nil_iff]
  omega

/-- Three-object bucket listed with a page size of two. -/
def w8_s3 : S3State := ⟨["k1", "k2", "k3"], 2⟩

/-- Witness for C8 at a bucket one key larger than the page. -/
theorem C8_single_page_object_deletion_witness :
    delete_s3_bucket_run "my-trail-bucket" w8_s3 =
      { calls := Call.listObjects "my-trail-bucket" ::
          ((["k1", "k2"]).map (Call.deleteObject "my-trail-bucket")
            ++ [Call.deleteBucket "my-trail-bucket"])
        logs := [⟨.debug, "All objects from s3 bucket my-trail-bucket have been deleted."⟩]
        s3 := ⟨["k3"], 2⟩
        err := some (.clientError ⟨"BucketNotEmpty"⟩) }
    ∧ (["k1", "k2", "k3"] : List String).drop 2 ≠ [] :=
  C8_single_page_object_deletion "my-trail-bucket" w8_s3 (by decide) (by decide)

/-- C9: when only an account id and a role name are known, both the
lambda path and the CLI path (the latter guarded by Python truthiness,
so for a non-empty role name) build the role ARN from the partition
segment of the caller identity ARN as
arn:partition:iam::account:role/name. -/
theorem C9_role_arn_construction (caller_arn p : String) (rest : List String)
    (account_id role_name : String)
    (hp : pySplitColon caller_arn = "arn" :: p :: rest) :
    lambda_assume_role_arn caller_arn account_id role_name
      = "arn:" ++ p ++ ":iam::" ++ account_id ++ ":role/" ++ role_name
    ∧ (role_name ≠ "" →
        cli_assume_role_arn caller_arn account_id none (some role_name)
          = some ("arn:" ++ p ++ ":iam::" ++ account_id ++ ":role/" ++ role_name)) := by
  have hpart : get_partition caller_arn = p := by
    unfold get_partition
    rw [hp]
    rfl
  constructor
  · unfold lambda_assume_role_arn
    rw [hpart]
  · intro hname
    simp only [cli_assume_role_arn]
    rw [if_neg hname, hpart]

/-- Witness for C9 at a GovCloud caller identity ARN. -/
theorem C9_role_arn_construction_witness :
    lambda_assume_role_arn "arn:aws-us-gov:sts::999999999999:assumed-role/deploy/session"
        "123456789012" "OrganizationAccountAccessRole"
      = "arn:" ++ "aws-us-gov" ++ ":iam::" ++ "123456789012" ++ ":role/"
        ++ "OrganizationAccountAccessRole"
    ∧ cli_assume_role_arn "arn:aws-us-gov:sts::999999999999:assumed-role/deploy/session"
        "123456789012" none (some "OrganizationAccountAccessRole")
      = some ("arn:" ++ "aws-us-gov" ++ ":iam::" ++ "123456789012" ++ ":role/"
          ++ "OrganizationAccountAccessRole") :=
  have h := C9_role_arn_construction "arn:aws-us-gov:sts::999999999999:assumed-role/deploy/session"
    "aws-us-gov" ["sts", "", "999999999999", "assumed-role/deploy/session"]
    "123456789012" "OrganizationAccountAccessRole" (by decide)
  ⟨h.1, h.2 (by decide)⟩

/-- C10: the DRY_RUN and ERROR_NOT_FOUND environment values are true
exactly when the lowercased string equals true; an unset variable
defaults to true, while 1, yes and the empty string all parse as false,
so DRY_RUN set to 1 runs live deletion. -/
theorem C10_env_flag_parsing :
    (∀ v : Option String,
      (DRY_RUN_of v = true ↔ pyLower (v.getD "true") = "true")
      ∧ (ERROR_NOT_FOUND_of v = true ↔ pyLower (v.getD "true") = "true"))
    ∧ DRY_RUN_of none = true
    ∧ ERROR_NOT_FOUND_of none = true
    ∧ DRY_RUN_of (some "TRUE") = true
    ∧ DRY_RUN_of (some "1") = false
    ∧ DRY_RUN_of (some "yes") = false
    ∧ DRY_RUN_of (some "") = false
    ∧ ERROR_NOT_FOUND_of (some "1") = false := by
  refine ⟨?_, by decide, by decide, by decide, by decide, by decide, by decide, by decide⟩
  intro v
  constructor
  · simp [DRY_RUN_of]
  · simp [ERROR_NOT_FOUND_of]

end DeleteDefaultCloudtrail
